import Mathlib

/-!
Verification of the Rust error-handling tutorial file `src/main.rs`
(repository `rustErrorResult`).  The file's code fragments are embedded
shallowly: `Result<T, E>` becomes `Except ε α`, `std::error::Error`
values with their `cause()` chains become the inductive `StdError`,
writes to stderr become explicit state passing with a failure oracle,
and filesystem operations become an explicit world record.
-/

/-- Kinds of `std::io::Error`, restricted to the kinds the file mentions
(`io::ErrorKind::Other` appears at line 186). -/
inductive IoErrorKind where
  | notFound
  | permissionDenied
  | timedOut
  | other
deriving DecidableEq

/-- Model of `std::io::Error`: a kind together with a message. -/
structure IoError where
  kind : IoErrorKind
  msg : String
deriving DecidableEq

/-- Model of `io::Error::new(kind, msg)` (line 185). -/
def IoError.new (kind : IoErrorKind) (msg : String) : IoError := ⟨kind, msg⟩

/-- Model of `std::num::ParseIntError`: the failure cases of integer
parsing the file mentions (invalid digit at line 225, overflow at line 235). -/
inductive ParseIntError where
  | empty
  | invalidDigit
  | posOverflow
  | negOverflow
deriving DecidableEq

/-- A `std::error::Error` value as used by `print_error`: a printable
description together with an optional underlying cause, terminating at a
root cause with no further cause.  The inductive structure makes every
cause chain finite. -/
inductive StdError where
  | root (description : String)
  | chained (description : String) (cause : StdError)
deriving DecidableEq

/-- The `Display` text of the error (what `"{}"` formatting prints). -/
def StdError.description : StdError → String
  | .root d => d
  | .chained d _ => d

/-- Model of `err.cause()`: the underlying error, if any (line 89). -/
def StdError.cause : StdError → Option StdError
  | .root _ => none
  | .chained _ c => some c

/-- The chain of causes below an error, from its immediate cause down to
the root cause. -/
def StdError.causeChain : StdError → List StdError
  | .root _ => []
  | .chained _ c => c :: c.causeChain

/-- The root cause at the bottom of an error's cause chain. -/
def StdError.rootCause : StdError → StdError
  | .root d => .root d
  | .chained _ c => c.rootCause

/-- State of the stderr stream.  `written` holds the lines that reached
stderr; `attempted` records every write attempt, successful or not;
`failAt` is an oracle telling whether the k-th write attempt fails (for
example because stderr is piped to a process that was killed, line 253);
`tick` counts write attempts made so far. -/
structure Stderr where
  written : List String
  attempted : List String
  failAt : Nat → Bool
  tick : Nat

/-- Model of `writeln!(stderr(), ...)`: one write attempt that either
appends the line and succeeds, or fails with an `io::Error` and writes
nothing.  Either way it returns a `Result` the caller may discard. -/
def writeln (s : Stderr) (line : String) : Stderr × Except IoError Unit :=
  if s.failAt s.tick then
    ({ s with attempted := s.attempted ++ [line], tick := s.tick + 1 },
      Except.error (IoError.new .other "write failed"))
  else
    ({ s with written := s.written ++ [line],
               attempted := s.attempted ++ [line], tick := s.tick + 1 },
      Except.ok ())

/-- The `while let Some(cause) = err.cause()` loop of `print_error`
(lines 103 to 106): print `caused by:` for each cause and descend. -/
def print_error_loop : StdError → Stderr → Stderr
  | .root _, s => s
  | .chained _ c, s => print_error_loop c ((writeln s ("caused by: " ++ c.description)).1)

/-- Model of `print_error` (lines 101 to 107): dump an error message to
stderr, then walk the cause chain.  Each `writeln!` result is bound to
`_` and discarded.  The function returns unit. -/
def print_error (err : StdError) (s : Stderr) : Stderr × Unit :=
  let s1 := (writeln s ("error: " ++ err.description)).1
  (print_error_loop err s1, ())

/-- The lines `print_error` reports for an error: one `error:` line for
the error itself, then one `caused by:` line per link of the cause chain. -/
def errorReportLines (e : StdError) : List String :=
  ("error: " ++ e.description) :: e.causeChain.map (fun c => "caused by: " ++ c.description)

/-- The `?` operator on an expression producing a `Result`, inside a
function whose return type is a `Result` (lines 119 to 123): the rest of
the enclosing function is the continuation `rest`.  On success it unwraps
the success value; on error it returns from the enclosing function with
that error. -/
def questionMark {α β ε : Type} (result : Except ε α) (rest : α → Except ε β) :
    Except ε β :=
  match result with
  | .ok success_value => rest success_value
  | .error err => .error err

/-- The explicit `match` expression of lines 126 to 129:
`Ok(success_value) => success_value, Err(err) => return Err(err)`, with
the rest of the enclosing function as the continuation `rest`. -/
def matchPropagation {α β ε : Type} (result : Except ε α) (rest : α → Except ε β) :
    Except ε β :=
  match result with
  | .ok success_value => rest success_value
  | .error err => .error err

/-- Model of `result.unwrap_or(fallback)` (line 36): the success value if
any, otherwise the fallback, discarding the error value. -/
def Result.unwrap_or {α ε : Type} (result : Except ε α) (fallback : α) : α :=
  match result with
  | .ok v => v
  | .error _ => fallback

/-- Model of `result.unwrap_or_else(fallback_fn)` (line 47): like
`unwrap_or`, but the fallback is computed by calling `fallback_fn` on the
error, only in the error case. -/
def Result.unwrap_or_else {α ε : Type} (result : Except ε α) (fallback_fn : ε → α) : α :=
  match result with
  | .ok v => v
  | .error err => fallback_fn err

/-- Model of `result.unwrap()` (line 51): the success value on a success
result; `none` models the panic on an error result. -/
def Result.unwrap {α ε : Type} : Except ε α → Option α
  | .ok v => some v
  | .error _ => none

/-- Model of `type GenError = Box<std::error::Error>` (line 179): one
type holding any of the error kinds the file works with. -/
inductive GenError where
  | io (e : IoError)
  | parseInt (e : ParseIntError)
deriving DecidableEq

/-- Model of `type GenResult<T> = Result<T, GenError>` (line 180). -/
@[reducible] def GenResult (α : Type) : Type := Except GenError α

/-- The `From` conversion of an `io::Error` into a `GenError`
(`GenError::from(io_error)`, line 187). -/
def GenError.fromIo (e : IoError) : GenError := .io e

/-- The `From` conversion of a `ParseIntError` into a `GenError`, which
the `?` operator applies automatically (line 182). -/
def GenError.fromParse (e : ParseIntError) : GenError := .parseInt e

/-- Value of a list of decimal digit characters, accumulating left to
right; `none` if some character is not a digit. -/
def digitsValAux : List Char → Nat → Option Nat
  | [], acc => some acc
  | c :: cs, acc =>
    if c.isDigit then digitsValAux cs (acc * 10 + (c.toNat - '0'.toNat)) else none

/-- Value of a digit string, or `none` on a non-digit character. -/
def digitsVal (cs : List Char) : Option Nat := digitsValAux cs 0

/-- Largest value of a `u64`. -/
def u64MAX : Nat := 18446744073709551615

/-- Model of `str::parse::<u64>()` (line 222): an optional leading `+`,
then decimal digits; empty input, a non-digit character, and values above
`u64::MAX` are errors. -/
def parse_u64 (s : String) : Except ParseIntError Nat :=
  match s.data with
  | [] => .error .empty
  | '+' :: rest =>
    match digitsVal rest with
    | none => .error .invalidDigit
    | some v =>
      if rest.isEmpty then .error .invalidDigit
      else if v ≤ u64MAX then .ok v else .error .posOverflow
  | cs =>
    match digitsVal cs with
    | none => .error .invalidDigit
    | some v => if v ≤ u64MAX then .ok v else .error .posOverflow

/-- Magnitude part of `i64` parsing: digits after an optional sign. -/
def parse_i64_mag (ds : List Char) (negative : Bool) : Except ParseIntError Int :=
  match digitsVal ds with
  | none => .error .invalidDigit
  | some v =>
    if ds.isEmpty then .error .invalidDigit
    else if negative then
      if (v : Int) ≤ 9223372036854775808 then .ok (-(v : Int)) else .error .negOverflow
    else
      if (v : Int) ≤ 9223372036854775807 then .ok (v : Int) else .error .posOverflow

/-- Model of `str::parse::<i64>()` as used by `read_numbers` (line 165):
an optional sign, then decimal digits, range-checked against `i64`. -/
def parse_i64 (s : String) : Except ParseIntError Int :=
  match s.data with
  | [] => .error .empty
  | '-' :: rest => parse_i64_mag rest true
  | '+' :: rest => parse_i64_mag rest false
  | cs => parse_i64_mag cs false

/-- The value the loop body of `read_numbers` extracts from one
`line_result`: the two `?` applications in sequence, each converting its
error into a `GenError`. -/
def lineToNumber (line_result : Except IoError String) : GenResult Int :=
  match line_result with
  | .error e => .error (GenError.fromIo e)
  | .ok line =>
    match parse_i64 line with
    | .error e => .error (GenError.fromParse e)
    | .ok n => .ok n

/-- The `for line_result in file.lines()` loop of `read_numbers`
(lines 163 to 166), carrying the `numbers` vector: `let line =
line_result?` then `numbers.push(line.parse()?)`, with each `?`
converting the error into a `GenError`. -/
def read_numbers_go : List (Except IoError String) → List Int → GenResult (List Int)
  | [], numbers => .ok numbers
  | line_result :: rest, numbers =>
    match line_result with
    | .error e => .error (GenError.fromIo e)
    | .ok line =>
      match parse_i64 line with
      | .error e => .error (GenError.fromParse e)
      | .ok n => read_numbers_go rest (numbers ++ [n])

/-- Model of `read_numbers` (lines 161 to 168) with the `GenResult`
return type the file itself adopts at line 182: the input file is the
sequence of its `line_result`s. -/
def read_numbers (file : List (Except IoError String)) : GenResult (List Int) :=
  read_numbers_go file []

/-- A directory entry as `move_all` uses it: its file name and its path
inside the source directory. -/
structure DirEntry where
  file_name : String
  path : String
deriving DecidableEq

/-- The filesystem world a call of `move_all` runs against:
`read_dir p` is the outcome of opening directory `p` (failure, or the
sequence of `entry_result`s the iterator yields); `renameResult k` is the
outcome of the k-th `fs::rename` attempt. -/
structure FsWorld where
  read_dir : String → Except IoError (List (Except IoError DirEntry))
  renameResult : Nat → Except IoError Unit

/-- Model of `dst.join(entry.file_name())` (line 146). -/
def pathJoin (dir file : String) : String := dir ++ "/" ++ file

/-- The `for entry_result in src.read_dir()?` loop of `move_all`
(lines 144 to 148), carrying the rename counter and the list of renames
performed so far; each `?` returns the error at once.  A failed rename
performs nothing. -/
def move_all_loop (w : FsWorld) (dst : String) :
    List (Except IoError DirEntry) → Nat → List (String × String) →
      List (String × String) × Except IoError Unit
  | [], _, renamed => (renamed, .ok ())
  | entry_result :: rest, k, renamed =>
    match entry_result with
    | .error e => (renamed, .error e)
    | .ok entry =>
      let dst_file := pathJoin dst entry.file_name
      match w.renameResult k with
      | .error e => (renamed, .error e)
      | .ok _ => move_all_loop w dst rest (k + 1) (renamed ++ [(entry.path, dst_file)])

/-- Model of `move_all` (lines 143 to 150): returns the renames actually
performed (old path, new path, in order) together with the `io::Result`
value. -/
def move_all (w : FsWorld) (srd dst : String) :
    List (String × String) × Except IoError Unit :=
  match w.read_dir srd with
  | .error e => ([], .error e)
  | .ok entries => move_all_loop w dst entries 0 []

/-- The renames a run over the entries `es` performs when every operation
succeeds: each entry's path is renamed to its name joined onto `dst`. -/
def renamesOf (dst : String) (es : List DirEntry) : List (String × String) :=
  es.map (fun en => (en.path, pathJoin dst en.file_name))

/-- A named item of the tutorial file, with whether the file gives it a
body (line 11 `get_weather` and line 65 `remove_file` are bare
signatures). -/
structure RustItem where
  name : String
  hasBody : Bool
deriving DecidableEq

/-- The items `src/main.rs` declares, read off the file. -/
def mainRsItems : List RustItem :=
  [⟨"main", true⟩,
   ⟨"get_weather", false⟩,
   ⟨"remove_file", false⟩,
   ⟨"print_error", true⟩,
   ⟨"move_all", true⟩,
   ⟨"read_numbers", true⟩,
   ⟨"print_file_age", true⟩]

/-- Every name that some item, constant or type alias of `src/main.rs`
binds: the items above plus `THE_USUAL` (line 39), `GenError` (line 179)
and `GenResult` (line 180). -/
def definedNames : List String :=
  mainRsItems.map (fun it => it.name) ++ ["THE_USUAL", "GenError", "GenResult"]

/-- Names the code fragments of `src/main.rs` refer to, read off the
file: types and values used at lines 11, 22, 24, 28, 39, 43, 44, 50,
194 to 199, 216 and 243. -/
def usedNames : List String :=
  ["LatLng", "WeatherReport", "get_weather", "hometown", "display_weather",
   "schedule_weather_retry", "THE_USUAL", "los_angeles", "dispplay_weather",
   "vague_prediction", "compile_project", "MissingSemicolonError",
   "insert_semicolon_in_source_code", "skip_digits", "SystemTime"]

/-- The error of the spec's repossessed-boat example (line 90), used as a
concrete cause chain. -/
def errEx : StdError :=
  .chained "boat was repossessed"
    (.chained "failed to transfer 300 dollars to United Yacht Supply"
      (.root "failed to lookup address information"))

/-- An initially empty stderr whose writes all succeed. -/
def stderrEx : Stderr :=
  { written := [], attempted := [], failAt := fun _ => false, tick := 0 }

/-- The string of digits at line 235 whose value exceeds `u64::MAX`. -/
def overflowDigits : String := "99999999999999999999999999999999"

/-- A directory entry `a.txt` of the source directory `srcdir`. -/
def entryA : DirEntry := ⟨"a.txt", "srcdir/a.txt"⟩

/-- A directory entry `b.txt` of the source directory `srcdir`. -/
def entryB : DirEntry := ⟨"b.txt", "srcdir/b.txt"⟩

/-- A world where `srcdir` holds entries `a.txt` and `b.txt`, the first
rename succeeds and every later rename is denied. -/
def renameFailWorld : FsWorld :=
  { read_dir := fun _ => Except.ok [Except.ok entryA, Except.ok entryB],
    renameResult := fun k =>
      if k = 0 then Except.ok () else Except.error (IoError.new .permissionDenied "denied") }

/-! ## Lemmas about the stderr model -/

theorem writeln_attempted (s : Stderr) (line : String) :
    ((writeln s line).1).attempted = s.attempted ++ [line] := by
  unfold writeln; split <;> rfl

theorem writeln_failAt (s : Stderr) (line : String) :
    ((writeln s line).1).failAt = s.failAt := by
  unfold writeln; split <;> rfl

theorem writeln_written_ok (s : Stderr) (line : String) (h : s.failAt s.tick = false) :
    ((writeln s line).1).written = s.written ++ [line] := by
  simp [writeln, h]

theorem print_error_loop_attempted (e : StdError) :
    ∀ s : Stderr, (print_error_loop e s).attempted
      = s.attempted ++ e.causeChain.map (fun c => "caused by: " ++ c.description) := by
  induction e with
  | root d => intro s; simp [print_error_loop, StdError.causeChain]
  | chained d c ih =>
    intro s
    simp [print_error_loop, StdError.causeChain, ih, writeln_attempted]

theorem print_error_loop_written (e : StdError) :
    ∀ s : Stderr, (∀ k, s.failAt k = false) →
      (print_error_loop e s).written
        = s.written ++ e.causeChain.map (fun c => "caused by: " ++ c.description) := by
  induction e with
  | root d => intro s _; simp [print_error_loop, StdError.causeChain]
  | chained d c ih =>
    intro s h
    have hw := writeln_written_ok s ("caused by: " ++ c.description) (h s.tick)
    have hf := writeln_failAt s ("caused by: " ++ c.description)
    have h2 : ∀ k, ((writeln s ("caused by: " ++ c.description)).1).failAt k = false := by
      intro k; rw [hf]; exact h k
    simp [print_error_loop, StdError.causeChain, ih _ h2, hw]

theorem rootCause_cause (e : StdError) : (StdError.rootCause e).cause = none := by
  induction e with
  | root d => rfl
  | chained d c ih => exact ih

/-! ## Claim theorems -/

/-- C1: for every error value, whose cause chain is a finite linked
sequence ending at a root cause with no further cause, `print_error`
(when its writes to stderr succeed) first writes the line
`error: <err>` for the top-level error and then exactly one
`caused by: <cause>` line per link of the chain, in order from the
immediate cause down to the root cause, after which it stops. -/
theorem C1_print_error_emits_chain (e : StdError) (s : Stderr)
    (h : ∀ k, s.failAt k = false) :
    (print_error e s).1.written = s.written ++ errorReportLines e
    ∧ (e.rootCause).cause = none := by
  refine ⟨?_, rootCause_cause e⟩
  have hw := writeln_written_ok s ("error: " ++ e.description) (h s.tick)
  have hf := writeln_failAt s ("error: " ++ e.description)
  have h2 : ∀ k, ((writeln s ("error: " ++ e.description)).1).failAt k = false := by
    intro k; rw [hf]; exact h k
  simp only [print_error]
  rw [print_error_loop_written e _ h2, hw, errorReportLines]
  simp

/-- Witness for C1 at the repossessed-boat cause chain of line 90. -/
theorem C1_print_error_emits_chain_witness :
    (print_error errEx stderrEx).1.written = stderrEx.written ++ errorReportLines errEx
    ∧ (errEx.rootCause).cause = none :=
  C1_print_error_emits_chain errEx stderrEx (fun _ => rfl)

/-- C2: `print_error` never fails and never propagates an error: every
`writeln!` result is discarded, the sequence of report lines it attempts
does not depend on which writes to stderr fail (the oracle and the tick),
and the function always returns unit. -/
theorem C2_print_error_ignores_write_failures (e : StdError)
    (w a : List String) (f g : Nat → Bool) (i j : Nat) :
    (print_error e (Stderr.mk w a f i)).1.attempted
      = (print_error e (Stderr.mk w a g j)).1.attempted
    ∧ (print_error e (Stderr.mk w a f i)).1.attempted = a ++ errorReportLines e
    ∧ (print_error e (Stderr.mk w a f i)).2 = () := by
  have key : ∀ s : Stderr,
      (print_error e s).1.attempted = s.attempted ++ errorReportLines e := by
    intro s
    simp only [print_error]
    rw [print_error_loop_attempted, writeln_attempted, errorReportLines]
    simp
  exact ⟨by rw [key, key], key _, rfl⟩

/-- C3: inside a function returning a `Result` with matching error type,
`e?` is equivalent to `match e with Ok(success_value) => success_value,
Err(err) => return Err(err)`: on a success result both continue with the
unwrapped success value, on an error result both make the enclosing
function return that error at once, and the two agree on every result. -/
theorem C3_question_mark_equals_match :
    (∀ (α β ε : Type) (v : α) (k : α → Except ε β),
        questionMark (Except.ok v) k = k v ∧ matchPropagation (Except.ok v) k = k v)
    ∧ (∀ (α β ε : Type) (err : ε) (k : α → Except ε β),
        questionMark (Except.error err) k = Except.error err
        ∧ matchPropagation (Except.error err) k = Except.error err)
    ∧ (∀ (α β ε : Type) (r : Except ε α) (k : α → Except ε β),
        questionMark r k = matchPropagation r k) := by
  refine ⟨fun α β ε v k => ⟨rfl, rfl⟩, fun α β ε err k => ⟨rfl, rfl⟩,
    fun α β ε r k => ?_⟩
  cases r <;> rfl

/-- C5: `unwrap_or` returns the success value on a success result and the
fallback on an error result, discarding the error; `unwrap_or_else` is
the same except that the fallback function produces the fallback, is
applied to the error only on an error result, and does not affect the
result on a success result. -/
theorem C5_fallback_substitution (α ε : Type) (x v : α) (e : ε) (f g : ε → α) :
    Result.unwrap_or (Except.ok x : Except ε α) v = x
    ∧ Result.unwrap_or (Except.error e : Except ε α) v = v
    ∧ Result.unwrap_or_else (Except.ok x : Except ε α) f = x
    ∧ Result.unwrap_or_else (Except.ok x : Except ε α) f
        = Result.unwrap_or_else (Except.ok x : Except ε α) g
    ∧ Result.unwrap_or_else (Except.error e : Except ε α) f = f e :=
  ⟨rfl, rfl, rfl, rfl, rfl⟩

/-- C6: the code fragments of the file do not form a compilable program:
`hometown`, `los_angeles` and `WeatherReport` are referred to without any
definition in the file, the call at line 44 names `dispplay_weather`
which nothing defines, and `get_weather` (line 11) is a bare signature
with no body. -/
theorem C6_fragments_not_compilable :
    ("hometown" ∈ usedNames ∧ "hometown" ∉ definedNames)
    ∧ ("los_angeles" ∈ usedNames ∧ "los_angeles" ∉ definedNames)
    ∧ ("WeatherReport" ∈ usedNames ∧ "WeatherReport" ∉ definedNames)
    ∧ ("dispplay_weather" ∈ usedNames ∧ "dispplay_weather" ∉ definedNames)
    ∧ (RustItem.mk "get_weather" false) ∈ mainRsItems := by
  decide

theorem read_numbers_go_cons (r : Except IoError String)
    (rest : List (Except IoError String)) (acc : List Int) :
    read_numbers_go (r :: rest) acc
      = match lineToNumber r with
        | .error g => .error g
        | .ok n => read_numbers_go rest (acc ++ [n]) := by
  cases r with
  | error e => rfl
  | ok line =>
    simp only [read_numbers_go, lineToNumber]
    cases parse_i64 line <;> rfl

theorem read_numbers_go_ok (file : List (Except IoError String)) :
    ∀ ns acc : List Int, file.map lineToNumber = ns.map Except.ok →
      read_numbers_go file acc = Except.ok (acc ++ ns) := by
  induction file with
  | nil =>
    intro ns acc h
    cases ns with
    | nil => simp [read_numbers_go]
    | cons n ns' => simp at h
  | cons r rest ih =>
    intro ns acc h
    cases ns with
    | nil => simp at h
    | cons n ns' =>
      simp only [List.map_cons, List.cons.injEq] at h
      obtain ⟨h1, h2⟩ := h
      rw [read_numbers_go_cons, h1]
      show read_numbers_go rest (acc ++ [n]) = _
      rw [ih ns' (acc ++ [n]) h2]
      simp

theorem read_numbers_go_err (pre : List (Except IoError String)) :
    ∀ (ns acc : List Int) (bad : Except IoError String) (g : GenError)
      (rest : List (Except IoError String)),
      pre.map lineToNumber = ns.map Except.ok →
      lineToNumber bad = Except.error g →
      read_numbers_go (pre ++ bad :: rest) acc = Except.error g := by
  induction pre with
  | nil =>
    intro ns acc bad g rest _ hbad
    rw [List.nil_append, read_numbers_go_cons, hbad]
  | cons r pre' ih =>
    intro ns acc bad g rest h hbad
    cases ns with
    | nil => simp at h
    | cons n ns' =>
      simp only [List.map_cons, List.cons.injEq] at h
      obtain ⟨h1, h2⟩ := h
      rw [List.cons_append, read_numbers_go_cons, h1]
      exact ih ns' (acc ++ [n]) bad g rest h2 hbad

/-- C4: heterogeneous errors are wrapped behind the one type `GenError`:
an `io::Error` and a `ParseIntError` each convert into a `GenError`, and
with return type `GenResult` the `?` operator applies the conversion
automatically, so `read_numbers` propagates a failed read and a failed
parse through the single `GenError` type. -/
theorem C4_gen_error_wraps_both (ioe : IoError) (pe : ParseIntError) (s : String)
    (rest : List (Except IoError String)) (hp : parse_i64 s = Except.error pe) :
    GenError.fromIo ioe = GenError.io ioe
    ∧ GenError.fromParse pe = GenError.parseInt pe
    ∧ read_numbers (Except.error ioe :: rest) = Except.error (GenError.fromIo ioe)
    ∧ read_numbers (Except.ok s :: rest) = Except.error (GenError.fromParse pe) := by
  refine ⟨rfl, rfl, rfl, ?_⟩
  show read_numbers_go (Except.ok s :: rest) [] = _
  rw [read_numbers_go_cons]
  have hl : lineToNumber (Except.ok s) = Except.error (GenError.fromParse pe) := by
    simp [lineToNumber, hp, GenError.fromParse]
  rw [hl]

/-- Witness for C4 at the timed-out `io::Error` of line 185 and the
non-numeric string of line 225. -/
theorem C4_gen_error_wraps_both_witness :
    GenError.fromIo (IoError.new .other "timed out")
        = GenError.io (IoError.new .other "timed out")
    ∧ GenError.fromParse ParseIntError.invalidDigit
        = GenError.parseInt ParseIntError.invalidDigit
    ∧ read_numbers (Except.error (IoError.new .other "timed out") :: [])
        = Except.error (GenError.fromIo (IoError.new .other "timed out"))
    ∧ read_numbers (Except.ok "bleen" :: [])
        = Except.error (GenError.fromParse ParseIntError.invalidDigit) :=
  C4_gen_error_wraps_both (IoError.new .other "timed out") ParseIntError.invalidDigit
    "bleen" [] rfl

/-- C8: if every line of the input reads and parses as an `i64`,
`read_numbers` returns `Ok` with the parsed numbers in input-line order;
otherwise it returns `Err` with the error of the first line that fails
to read or parse, and no line after that first failure affects the
result. -/
theorem C8_read_numbers_first_failure (file pre rest : List (Except IoError String))
    (bad : Except IoError String) (ns ms : List Int) (g : GenError)
    (hok : file.map lineToNumber = ns.map Except.ok)
    (hpre : pre.map lineToNumber = ms.map Except.ok)
    (hbad : lineToNumber bad = Except.error g) :
    read_numbers file = Except.ok ns
    ∧ read_numbers (pre ++ bad :: rest) = Except.error g
    ∧ read_numbers (pre ++ bad :: rest) = read_numbers (pre ++ [bad]) := by
  refine ⟨?_, ?_, ?_⟩
  · show read_numbers_go file [] = _
    rw [read_numbers_go_ok file ns [] hok]
    simp
  · exact read_numbers_go_err pre ms [] bad g rest hpre hbad
  · have h1 := read_numbers_go_err pre ms [] bad g rest hpre hbad
    have h2 := read_numbers_go_err pre ms [] bad g [] hpre hbad
    show read_numbers_go (pre ++ bad :: rest) [] = read_numbers_go (pre ++ [bad]) []
    rw [h1, h2]

/-- Witness for C8: a file of two good lines, and a file whose second
line is not numeric followed by a line that is never reached. -/
theorem C8_read_numbers_first_failure_witness :
    read_numbers [Except.ok "1", Except.ok "2"] = Except.ok [(1 : Int), 2]
    ∧ read_numbers ([Except.ok "7"] ++ Except.ok "x" :: [Except.ok "9"])
        = Except.error (GenError.fromParse ParseIntError.invalidDigit)
    ∧ read_numbers ([Except.ok "7"] ++ Except.ok "x" :: [Except.ok "9"])
        = read_numbers ([Except.ok "7"] ++ [Except.ok "x"]) :=
  C8_read_numbers_first_failure [Except.ok "1", Except.ok "2"] [Except.ok "7"]
    [Except.ok "9"] (Except.ok "x") [1, 2] [7]
    (GenError.fromParse ParseIntError.invalidDigit) rfl rfl rfl

/-- C9: the precondition that `digits` consists entirely of digits does
not make the error branch of `digits.parse::<u64>().unwrap()`
unreachable: the all-digit string of thirty-two nines parses to an error
(its value exceeds `u64::MAX`), so the `unwrap` panics on it. -/
theorem C9_unwrap_panics_on_overflow :
    (overflowDigits.data.all Char.isDigit = true)
    ∧ parse_u64 overflowDigits = Except.error ParseIntError.posOverflow
    ∧ Result.unwrap (parse_u64 overflowDigits) = none :=
  ⟨by decide, rfl, rfl⟩

theorem move_all_loop_cons_readErr (w : FsWorld) (dst : String) (e : IoError)
    (tail : List (Except IoError DirEntry)) (k : Nat)
    (renamed : List (String × String)) :
    move_all_loop w dst (Except.error e :: tail) k renamed
      = (renamed, Except.error e) := rfl

theorem move_all_loop_cons_renameErr (w : FsWorld) (dst : String) (en : DirEntry)
    (tail : List (Except IoError DirEntry)) (k : Nat)
    (renamed : List (String × String)) (e : IoError)
    (h : w.renameResult k = Except.error e) :
    move_all_loop w dst (Except.ok en :: tail) k renamed
      = (renamed, Except.error e) := by
  simp only [move_all_loop, h]

theorem move_all_loop_cons_ok (w : FsWorld) (dst : String) (en : DirEntry)
    (tail : List (Except IoError DirEntry)) (k : Nat)
    (renamed : List (String × String)) (h : w.renameResult k = Except.ok ()) :
    move_all_loop w dst (Except.ok en :: tail) k renamed
      = move_all_loop w dst tail (k + 1)
          (renamed ++ [(en.path, pathJoin dst en.file_name)]) := by
  simp only [move_all_loop, h]

theorem move_all_loop_ok_run (w : FsWorld) (dst : String) (pre : List DirEntry) :
    ∀ (k : Nat) (renamed : List (String × String))
      (tail : List (Except IoError DirEntry)),
      (∀ j, j < pre.length → w.renameResult (k + j) = Except.ok ()) →
      move_all_loop w dst (pre.map Except.ok ++ tail) k renamed
        = move_all_loop w dst tail (k + pre.length) (renamed ++ renamesOf dst pre) := by
  induction pre with
  | nil =>
    intro k renamed tail _
    simp [renamesOf]
  | cons en pre' ih =>
    intro k renamed tail h
    have h0 : w.renameResult k = Except.ok () := by
      have h' := h 0 (by simp)
      simpa using h'
    rw [List.map_cons, List.cons_append,
      move_all_loop_cons_ok w dst en _ k renamed h0]
    rw [ih (k + 1) _ tail (fun j hj => by
      have hlt : j + 1 < (en :: pre').length := by
        simp only [List.length_cons]
        omega
      have := h (j + 1) hlt
      have hkj : k + (j + 1) = k + 1 + j := by omega
      rw [hkj] at this
      exact this)]
    congr 1
    · simp only [List.length_cons]
      omega
    · simp [renamesOf]

theorem move_all_loop_ok_forces (w : FsWorld) (dst : String) :
    ∀ (entries : List (Except IoError DirEntry)) (k : Nat)
      (renamed : List (String × String)),
      (move_all_loop w dst entries k renamed).2 = Except.ok () →
      (∀ r ∈ entries, ∃ en, r = Except.ok en)
      ∧ (∀ j, j < entries.length → w.renameResult (k + j) = Except.ok ()) := by
  intro entries
  induction entries with
  | nil =>
    intro k renamed _
    exact ⟨by simp, by simp⟩
  | cons r rest ih =>
    intro k renamed h
    cases r with
    | error e => simp [move_all_loop_cons_readErr] at h
    | ok en =>
      cases hr : w.renameResult k with
      | error e =>
        rw [move_all_loop_cons_renameErr w dst en rest k renamed e hr] at h
        simp at h
      | ok u =>
        cases u
        rw [move_all_loop_cons_ok w dst en rest k renamed hr] at h
        obtain ⟨hall, hren⟩ := ih (k + 1) _ h
        refine ⟨?_, ?_⟩
        · intro r hmem
          rw [List.mem_cons] at hmem
          rcases hmem with rfl | hmem
          · exact ⟨en, rfl⟩
          · exact hall r hmem
        · intro j hj
          cases j with
          | zero => simpa using hr
          | succ j' =>
            have hj' : j' < rest.length := by
              simp only [List.length_cons] at hj
              omega
            have := hren j' hj'
            have hkj : k + (j' + 1) = k + 1 + j' := by omega
            rw [hkj]
            exact this

/-- C10: `move_all` is not atomic on error: it walks the directory
entries in iteration order; when opening the directory, reading an
entry, or renaming the k-th entry fails, it returns that error at once,
the earlier entries stay renamed into `dst` with no rollback, no later
entry is attempted (the result does not depend on the remaining
entries), and it returns `Ok` only when every operation succeeds. -/
theorem C10_move_all_not_atomic (srd dst : String) :
    (∀ (w : FsWorld) (e : IoError), w.read_dir srd = Except.error e →
        move_all w srd dst = ([], Except.error e))
    ∧ (∀ (w : FsWorld) (pre : List DirEntry) (e : IoError)
          (rest : List (Except IoError DirEntry)),
        w.read_dir srd = Except.ok (pre.map Except.ok ++ Except.error e :: rest) →
        (∀ j, j < pre.length → w.renameResult j = Except.ok ()) →
        move_all w srd dst = (renamesOf dst pre, Except.error e))
    ∧ (∀ (w : FsWorld) (pre : List DirEntry) (en : DirEntry) (e : IoError)
          (rest : List (Except IoError DirEntry)),
        w.read_dir srd = Except.ok (pre.map Except.ok ++ Except.ok en :: rest) →
        (∀ j, j < pre.length → w.renameResult j = Except.ok ()) →
        w.renameResult pre.length = Except.error e →
        move_all w srd dst = (renamesOf dst pre, Except.error e))
    ∧ (∀ (w : FsWorld) (entries : List DirEntry),
        w.read_dir srd = Except.ok (entries.map Except.ok) →
        (∀ j, j < entries.length → w.renameResult j = Except.ok ()) →
        move_all w srd dst = (renamesOf dst entries, Except.ok ()))
    ∧ (∀ (w : FsWorld) (entries : List (Except IoError DirEntry)),
        w.read_dir srd = Except.ok entries →
        (move_all w srd dst).2 = Except.ok () →
        (∀ r ∈ entries, ∃ en, r = Except.ok en)
        ∧ (∀ j, j < entries.length → w.renameResult j = Except.ok ())) := by
  refine ⟨?_, ?_, ?_, ?_, ?_⟩
  · intro w e h
    simp [move_all, h]
  · intro w pre e rest h hren
    simp only [move_all, h]
    rw [move_all_loop_ok_run w dst pre 0 [] _ (fun j hj => by simpa using hren j hj)]
    rw [move_all_loop_cons_readErr]
    simp
  · intro w pre en e rest h hren hfail
    simp only [move_all, h]
    rw [move_all_loop_ok_run w dst pre 0 [] _ (fun j hj => by simpa using hren j hj)]
    rw [move_all_loop_cons_renameErr w dst en rest (0 + pre.length) _ e
      (by simpa using hfail)]
    simp
  · intro w entries h hren
    simp only [move_all, h]
    rw [show entries.map Except.ok = entries.map Except.ok ++ [] by simp]
    rw [move_all_loop_ok_run w dst entries 0 [] []
      (fun j hj => by simpa using hren j hj)]
    simp [move_all_loop]
  · intro w entries h hok
    simp only [move_all, h] at hok
    obtain ⟨hall, hren⟩ := move_all_loop_ok_forces w dst entries 0 [] hok
    exact ⟨hall, fun j hj => by simpa using hren j hj⟩

/-- Witness for C10: in a world with entries `a.txt` and `b.txt` where
the second rename is denied, `a.txt` stays renamed and the error is
returned at once. -/
theorem C10_move_all_not_atomic_witness :
    move_all renameFailWorld "srcdir" "dst"
      = (renamesOf "dst" [entryA],
          Except.error (IoError.new .permissionDenied "denied")) :=
  (C10_move_all_not_atomic "srcdir" "dst").2.2.1 renameFailWorld [entryA] entryB
    (IoError.new .permissionDenied "denied") [] rfl
    (fun j hj => by
      have hj0 : j = 0 := Nat.lt_one_iff.mp hj
      subst hj0
      rfl)
    rfl
